import Mathlib

/-!
Verification of the arib repository (ts2ass pipeline) against its
natural-language specification.

The development shallowly embeds the relevant Python source:
  - src/arib/closed_caption.py : CaptionStatementData, Language, DRCSFont,
    DRCSCharacter (byte-stream parsers; the byte reader helpers of the
    missing read module are modelled from the spec).
  - src/arib/ass.py : asstime, ClosedCaptionArea.RowCol2ScreenPos and the
    stateful ASSFormatter token handlers (kanji .. clear_screen).

Python floats are modelled by exact rationals; Python byte-file cursors by
List Nat (each element one byte, values < 256 in actual use).
-/

set_option maxHeartbeats 1000000
set_option maxRecDepth 4000
set_option linter.unusedVariables false
set_option linter.unusedTactic false

deriving instance DecidableEq for Except

unseal Rat.add Rat.sub Rat.mul Rat.inv Rat.ofScientific

/-- Modelled from the spec: the `read` module (not under src/) provides
byte-sequential big-endian fixed-width unsigned integer reads (read.ucb = 1
byte, read.usb = 2, read.ui3b = 3, read.ulb = 8 per the 64-bit composite
read in CaptionStatementData); reading past the end raises EOFError.
Accumulator-style big-endian read of `n` bytes. -/
def readBEAux (acc : Nat) : Nat → List Nat → Except String (Nat × List Nat)
  | 0, bs => .ok (acc, bs)
  | _ + 1, [] => .error "EOFError"
  | n + 1, b :: bs => readBEAux (acc * 256 + b) n bs

/-- Modelled from the spec: read `n` bytes big-endian from the byte cursor. -/
def readBE (n : Nat) (bs : List Nat) : Except String (Nat × List Nat) :=
  readBEAux 0 n bs

/-- closed_caption.py CaptionStatementData.__init__, header part: TMD and
the length/STM fields (source lines 37-53).  The source masks the 64-bit
composite word with 0xFFFFFFFF (32 bits). -/
structure CaptionStatementHeader where
  TMD : Nat
  STM : Nat
  data_unit_loop_length : Nat
deriving DecidableEq

/-- Embedding of CaptionStatementData.__init__ (header reads only):
`TMD = ucb >> 6`; if TMD is 1 or 2 read one 64-bit word `d` and set
`STM = d >> 28`, `length = d & 0xFFFFFFFF`; else read a 3-byte length. -/
def parseCaptionStatementHeader (bs : List Nat) :
    Except String (CaptionStatementHeader × List Nat) := do
  let (b, bs) ← readBE 1 bs
  let tmd := b >>> 6
  if tmd = 1 ∨ tmd = 2 then
    let (d, bs) ← readBE 8 bs
    .ok (⟨tmd, d >>> 28, d &&& 0xFFFFFFFF⟩, bs)
  else
    let (len, bs) ← readBE 3 bs
    .ok (⟨tmd, 0, len⟩, bs)

/-- closed_caption.py Language record (source lines 295-324). -/
structure LanguageRec where
  language_tag : Nat
  DMF : Nat
  DC : Nat
  language_code : String
  format : Nat
  rollup_mode : Nat
deriving DecidableEq

/-- Embedding of Language.__init__: `tag = d >> 5`, `DMF = d & 0x7`; a DC
byte is read only when `DMF` equals 0b1100/0b1101/0b1110 (otherwise DC = 0);
then three language-code bytes and the format/rollup byte. -/
def parseLanguage (bs : List Nat) : Except String (LanguageRec × List Nat) := do
  let (d, bs) ← readBE 1 bs
  let tag := d >>> 5
  let dmf := d &&& 0x7
  let (dc, bs) ←
    if dmf = 0b1100 ∨ dmf = 0b1101 ∨ dmf = 0b1110 then
      readBE 1 bs
    else
      pure (0, bs)
  let (c1, bs) ← readBE 1 bs
  let (c2, bs) ← readBE 1 bs
  let (c3, bs) ← readBE 1 bs
  let code := String.mk [Char.ofNat c1, Char.ofNat c2, Char.ofNat c3]
  let (fm, bs) ← readBE 1 bs
  .ok (⟨tag, dmf, dc, code, fm >>> 4, fm &&& 0x3⟩, bs)

/-- closed_caption.py DRCSFont.character_hashes (source lines 144-164): the
static table mapping a pixel-payload hash to a substitute string. -/
def character_hashes : List (Int × String) :=
  [(-3174437220813644284, "♬"),
   (3626218632846089044, "[ｽﾋﾟｰｶｰ]"),
   (-7036522249175460012, "[ｽﾋﾟｰｶｰ]"),
   (7569189553178784666, "[ﾊﾟｿｺﾝ]"),
   (-7054764751876937278, "[ﾃﾚﾋﾞ]"),
   (7675785349947576464, "[携帯]"),
   (-8588766517861681222, "｟"),
   (-137322149189423910, "｠"),
   (-8884896295922033014, "⟪"),
   (-5876459750587952470, "⟫"),
   (2149867084803144864, "[ﾃﾚﾋﾞ]"),
   (-6623079553638809300, "[ﾏｲｸ]"),
   (-3827305093498498888, "𝔹"),
   (-775118510460996568, "｟"),
   (-4397084408988046416, "｠"),
   (-6328951014288157962, "[ﾊﾟｿｺﾝ]"),
   (1113567731799993878, "①"),
   (6707059547002745896, "[ﾗｼﾞｵ]"),
   (6692026985814559272, "[携帯]")]

/-- Dictionary lookup in the substitute table (keys are distinct). -/
def lookup_hash (h : Int) : Option String :=
  (character_hashes.find? (fun p => p.1 = h)).map (fun p => p.2)

/-- DRCSFont.__init__ lines 188-191: the character stored for a glyph whose
pixel hash is `h` — the substitute if the hash is known, else the
replacement character.  (Python's str hash itself is process-randomized and
not reproducible, so the resolution is a function of the hash value.) -/
def DRCSFont_character (h : Int) : String :=
  match lookup_hash h with
  | some s => s
  | none => "�"

/-- closed_caption.py DRCSFont (source lines 135-215). -/
structure DRCSFont where
  font_id : Nat
  mode : Nat
  depth : Nat
  width : Nat
  height : Nat
  pixels : List Nat
  character : String
deriving DecidableEq

/-- Embedding of DRCSFont.__init__: first byte packs
`font_id = (b & 0xF0) >> 8` (the source's shift, which always yields 0) and
`mode = b & 0x0F`; for mode 0/1 read depth, width, height and
`(width*height)/4` pixel bytes, hash the pixel list and resolve the
character; any other mode raises ValueError("DRCSFont mode not supported.").
`pyhash` abstracts Python's process-randomized string hash. -/
def parseDRCSFont (pyhash : List Nat → Int) (bs : List Nat) :
    Except String (DRCSFont × List Nat) := do
  let (b, bs) ← readBE 1 bs
  let fid := (b &&& 0xF0) >>> 8
  let mode := b &&& 0x0F
  if mode = 0 ∨ mode = 1 then
    let (depth, bs) ← readBE 1 bs
    let (width, bs) ← readBE 1 bs
    let (height, bs) ← readBE 1 bs
    let n := width * height / 4
    if n ≤ bs.length then
      let pixels := bs.take n
      let bs := bs.drop n
      .ok (⟨fid, mode, depth, width, height, pixels,
            DRCSFont_character (pyhash pixels)⟩, bs)
    else
      .error "EOFError"
  else
    .error "DRCSFont mode not supported."

/-- Parse `n` consecutive DRCSFont records (the font loop of
DRCSCharacter.__init__); an error in any font aborts the whole loop. -/
def parseDRCSFonts (pyhash : List Nat → Int) :
    Nat → List Nat → Except String (List DRCSFont × List Nat)
  | 0, bs => .ok ([], bs)
  | n + 1, bs => do
    let (f, bs) ← parseDRCSFont pyhash bs
    let (fs, bs) ← parseDRCSFonts pyhash n bs
    .ok (f :: fs, bs)

/-- closed_caption.py DRCSCharacter (source lines 218-229). -/
structure DRCSCharacter where
  character_code : Nat
  number_of_font : Nat
  fonts : List DRCSFont
deriving DecidableEq

/-- Embedding of DRCSCharacter.__init__: 16-bit character_code, 8-bit
number_of_font, then that many DRCSFont records. -/
def parseDRCSCharacter (pyhash : List Nat → Int) (bs : List Nat) :
    Except String (DRCSCharacter × List Nat) := do
  let (code, bs) ← readBE 2 bs
  let (nf, bs) ← readBE 1 bs
  let (fonts, bs) ← parseDRCSFonts pyhash nf bs
  .ok (⟨code, nf, fonts⟩, bs)

/-- ass.py TextSize.SMALL (source line 72). -/
def TextSize_SMALL : Nat := 1

/-- ass.py TextSize.MEDIUM (source line 73). -/
def TextSize_MEDIUM : Nat := 2

/-- ass.py TextSize.NORMAL (source line 74). -/
def TextSize_NORMAL : Nat := 3

/-- A screen position in pixels (ass.py Pos); Python floats modelled as
exact rationals. -/
structure ScreenPos where
  x : ℚ
  y : ℚ
deriving DecidableEq

/-- ClosedCaptionArea constants (ass.py lines 78-84): UL = (170, 30),
character dimensions 36x36, char spacing 4, line spacing 24. -/
def CCArea_UL : ScreenPos := ⟨170, 30⟩

/-- ClosedCaptionArea character width plus char spacing base values. -/
def CCArea_char_w : ℚ := 36 + 4

/-- ClosedCaptionArea character height plus line spacing base values. -/
def CCArea_char_h : ℚ := 36 + 24

/-- Embedding of ClosedCaptionArea.RowCol2ScreenPos (ass.py lines 95-115):
`r = row + 1`; `h` is halved for SMALL, `w` halved for SMALL or MEDIUM;
result is `(UL.x + c*w, UL.y + r*h)`. -/
def RowCol2ScreenPos (row col : ℤ) (size : Nat) : ScreenPos :=
  let r : ℤ := row + 1
  let c : ℤ := col
  let w0 : ℚ := CCArea_char_w
  let h0 : ℚ := CCArea_char_h
  let h : ℚ := if size = TextSize_SMALL then h0 / 2 else h0
  let w : ℚ := if size = TextSize_SMALL ∨ size = TextSize_MEDIUM then w0 / 2 else w0
  ⟨CCArea_UL.x + (c : ℚ) * w, CCArea_UL.y + (r : ℚ) * h⟩

/-- Python int() truncation toward zero, on rationals. -/
def pytrunc (q : ℚ) : ℤ :=
  if 0 ≤ q then ⌊q⌋ else -⌊-q⌋

/-- Round to the nearest integer, ties to even — the rounding used by
Python float formatting with a fixed number of decimals. -/
def roundHalfEven (q : ℚ) : ℤ :=
  let n := ⌊q⌋
  let f := q - (n : ℚ)
  if f < 1 / 2 then n
  else if 1 / 2 < f then n + 1
  else if n % 2 = 0 then n else n + 1

/-- Python "{m:02d}": zero-pad a (non-negative, single-digit) integer to
width two; wider or negative values print as-is. -/
def zpad2Int (m : ℤ) : String :=
  if 0 ≤ m ∧ m < 10 then "0" ++ toString m else toString m

/-- Digits of a non-negative centisecond count as "I.CC" (integer part,
dot, two centisecond digits). -/
def fmtSecNat (c : Nat) : String :=
  toString (c / 100) ++ "." ++
    (if c % 100 < 10 then "0" ++ toString (c % 100) else toString (c % 100))

/-- Python "{s:02.2f}" on the seconds value: two decimal digits, minimum
field width 2 zero-filled.  The result of the precision-2 format is always
at least four characters, so the width-2 pad never fires and the integer
part of the seconds is NOT padded to two digits. -/
def fmtSec2 (s : ℚ) : String :=
  let c := roundHalfEven (s * 100)
  if c < 0 then "-" ++ fmtSecNat (-c).toNat else fmtSecNat c.toNat

/-- Embedding of ass.py asstime (lines 183-189):
hours = int(seconds/3600) unpadded, then the remainder split into
minutes ("{:02d}") and seconds ("{:02.2f}"). -/
def asstime (seconds : ℚ) : String :=
  let hrs : ℤ := pytrunc (seconds / 3600)
  let s1 : ℚ := seconds - 3600 * (hrs : ℚ)
  let mins : ℤ := pytrunc (s1 / 60)
  let s2 : ℚ := s1 - 60 * (mins : ℚ)
  toString hrs ++ ":" ++ zpad2Int mins ++ ":" ++ fmtSec2 s2

/-- Python str() of the coordinate values interpolated by position_set:
plain integer when the source value is an int, "v.0" when it is an
(integer-valued) float — which is what the halved area constants produce. -/
def pyNumRepr (q : ℚ) (isFloat : Bool) : String :=
  if isFloat then
    (if q.den = 1 then toString q.num ++ ".0" else toString q)
  else toString q.num

/-- One emitted ASS Dialogue event: the numeric start/end seconds handed to
asstime, and the accumulated buffer text written in the Dialogue line. -/
structure DialogueEvent where
  start_s : ℚ
  end_s : ℚ
  text : String
deriving DecidableEq

/-- ASSFormatter mutable state (ass.py __init__ lines 421-450).  Dialog
buffers are kept newest-first (Python appends new Dialogs at the end and
clear_screen iterates them reversed, so this order is the emission order);
write-only fields (_pos, _color, _filename, _width, _height, _verbose) are
omitted. -/
structure FState where
  tmax : ℚ
  elapsed_time_s : ℚ
  file_open : Bool
  current_lines : List String
  current_style : String
  current_color : String
  current_textsize : Nat
deriving DecidableEq

/-- The freshly constructed ASSFormatter state (tmax from the CLI): no file
open, a single empty Dialog buffer, style "normal", color white, size
NORMAL. -/
def initialFState (tmax : ℚ) : FState :=
  ⟨tmax, 0, false, [""], "normal", "\x7b\\c&Hffffff&\x7d", TextSize_NORMAL⟩

/-- The caption tokens dispatched by ASSFormatter.DISPLAYED_CC_STATEMENTS
(ass.py lines 381-419).  A DRCS0..DRCS15 character carries the substitute
string its glyph resolved to in DRCSFont (ignored by the handler, as in the
source); csiA is a CSI sequence matching the source's APS regex
(modelled from the spec for the missing control_characters module);
csiOther is any other CSI; unhandled covers token types absent from the
dispatch table. -/
inductive Token where
  | kanji (s : String)
  | alphanumeric (s : String)
  | hiragana (s : String)
  | katakana (s : String)
  | aps (row col : ℤ)
  | msz
  | nsz
  | ssz
  | sp
  | cs
  | csiA (x y : Nat)
  | csiOther (raw : String)
  | bkf
  | rdf
  | grf
  | ylf
  | blf
  | mgf
  | cnf
  | whf
  | drcsChar (resolved : String)
  | unhandled
deriving DecidableEq

/-- ASSFormatter.open_file (ass.py lines 452-457): lazily mark the output
file as created. -/
def openFileF (st : FState) : FState :=
  { st with file_open := true }

/-- Append text to the active (last) Dialog buffer
(`_current_lines[-1] += s`); the buffer list is never empty in any
reachable state. -/
def appendCurrent (st : FState) (s : String) : FState :=
  { st with current_lines :=
      match st.current_lines with
      | a :: rest => (a ++ s) :: rest
      | [] => [s] }

/-- ass.py kanji/alphanumeric/hiragana/katakana handlers (lines 192-213):
open the file and append the character text. -/
def text_h (st : FState) (s : String) : FState :=
  appendCurrent (openFileF st) s

/-- ass.py medium handler (lines 216-220). -/
def medium_h (st : FState) : FState :=
  let st := openFileF st
  let st := appendCurrent st ("\x7b\\rmedium\x7d" ++ st.current_color)
  { st with current_style := "medium", current_textsize := TextSize_MEDIUM }

/-- ass.py normal handler (lines 223-227). -/
def normal_h (st : FState) : FState :=
  let st := openFileF st
  let st := appendCurrent st ("\x7b\\rnormal\x7d" ++ st.current_color)
  { st with current_style := "normal", current_textsize := TextSize_NORMAL }

/-- ass.py small handler (lines 230-234). -/
def small_h (st : FState) : FState :=
  let st := openFileF st
  let st := appendCurrent st ("\x7b\\rsmall\x7d" ++ st.current_color)
  { st with current_style := "small", current_textsize := TextSize_SMALL }

/-- ass.py space handler (lines 237-239). -/
def space_h (st : FState) : FState :=
  appendCurrent (openFileF st) " "

/-- ass.py drcs handler (lines 242-243): append the fixed replacement
character to the active buffer; note it does NOT call open_file and ignores
the character (and hence its resolved substitute) entirely. -/
def drcs_h (st : FState) (resolved : String) : FState :=
  appendCurrent st "�"

/-- ass.py color handlers black..white (lines 246-299): open the file,
append the ASS color override and record it as the current color. -/
def color_h (st : FState) (c : String) : FState :=
  let st := openFileF st
  let st := appendCurrent st c
  { st with current_color := c }

/-- ass.py position_set handler (lines 302-310): compute the screen
position for the current text size and start a new Dialog buffer prefixed
with style reset, current color and a \pos override.  Does not open the
file. -/
def position_set_h (st : FState) (row col : ℤ) : FState :=
  let pos := RowCol2ScreenPos row col st.current_textsize
  let xIsF := st.current_textsize = TextSize_SMALL ∨ st.current_textsize = TextSize_MEDIUM
  let yIsF := st.current_textsize = TextSize_SMALL
  let line := "\x7b\\r" ++ st.current_style ++ "\x7d" ++ st.current_color ++
    "\x7b\\pos(" ++ pyNumRepr pos.x (decide xIsF) ++ "," ++
    pyNumRepr pos.y (decide yIsF) ++ ")\x7d"
  { st with current_lines := line :: st.current_lines }

/-- ass.py control_character handler (lines 316-339): on a CSI whose string
matches the APS regex, start a new Dialog buffer with a \pos and \an1
override; all other CSI sequences are ignored.  Does not open the file. -/
def control_character_h (st : FState) (tok : Token) : FState :=
  match tok with
  | .csiA x y =>
      { st with current_lines :=
          ("\x7b\\r" ++ st.current_style ++ "\x7d" ++ st.current_color ++
           "\x7b\\pos(" ++ toString x ++ "," ++ toString y ++ ")\x7d\x7b\\an1\x7d")
          :: st.current_lines }
  | _ => st

/-- The white color override reset by clear_screen (ass.py line 370). -/
def whiteColor : String := "\x7b\\c&Hffffff&\x7d"

/-- The end-time value used by clear_screen (ass.py lines 346-349): the
current timestamp, capped at elapsed_time_s + tmax. -/
def endValue (st : FState) (timestamp : ℚ) : ℚ :=
  if timestamp - st.elapsed_time_s > st.tmax then st.elapsed_time_s + st.tmax
  else timestamp

/-- ass.py clear_screen handler (lines 345-370): when the guard
`(len(lines[0]) or len(lines)) and start_time != end_time` holds, write a
Dialogue line per non-empty buffer, newest first, to the file if it is
open, and reset the buffer list when any buffer was non-empty; always set
elapsed_time_s to the timestamp, the size to NORMAL and the color to white
(the style is left unchanged).  Python index 0 is the oldest buffer, i.e.
the last of this newest-first list. -/
def clear_screen_h (st : FState) (timestamp : ℚ) : FState × List DialogueEvent :=
  let end_val := endValue st timestamp
  let end_time := asstime end_val
  let start_time := asstime st.elapsed_time_s
  if (st.current_lines.getLastD "" ≠ "" ∨ st.current_lines ≠ []) ∧
      start_time ≠ end_time then
    let nonempty := st.current_lines.filter (fun l => !l.isEmpty)
    let events := if st.file_open then
        nonempty.map (fun l => ⟨st.elapsed_time_s, end_val, l⟩)
      else []
    let newLines := if nonempty.length ≠ 0 then [""] else st.current_lines
    let st2 := { st with
      current_lines := newLines,
      elapsed_time_s := timestamp,
      current_textsize := TextSize_NORMAL,
      current_color := whiteColor }
    (st2, events)
  else
    let st2 := { st with
      elapsed_time_s := timestamp,
      current_textsize := TextSize_NORMAL,
      current_color := whiteColor }
    (st2, [])

/-- Dispatch of one token through ASSFormatter.DISPLAYED_CC_STATEMENTS
(ass.py format, lines 462-475), returning the new state and the Dialogue
events written during the step. -/
def formatCC (st : FState) (tok : Token) (timestamp : ℚ) :
    FState × List DialogueEvent :=
  match tok with
  | .kanji s => (text_h st s, [])
  | .alphanumeric s => (text_h st s, [])
  | .hiragana s => (text_h st s, [])
  | .katakana s => (text_h st s, [])
  | .aps row col => (position_set_h st row col, [])
  | .msz => (medium_h st, [])
  | .nsz => (normal_h st, [])
  | .ssz => (small_h st, [])
  | .sp => (space_h st, [])
  | .cs => clear_screen_h st timestamp
  | .csiA x y => (control_character_h st (.csiA x y), [])
  | .csiOther raw => (control_character_h st (.csiOther raw), [])
  | .bkf => (color_h st "\x7b\\c&H000000&\x7d", [])
  | .rdf => (color_h st "\x7b\\c&H0000ff&\x7d", [])
  | .grf => (color_h st "\x7b\\c&H00ff00&\x7d", [])
  | .ylf => (color_h st "\x7b\\c&H00ffff&\x7d", [])
  | .blf => (color_h st "\x7b\\c&Hff0000&\x7d", [])
  | .mgf => (color_h st "\x7b\\c&Hff00ff&\x7d", [])
  | .cnf => (color_h st "\x7b\\c&Hffff00&\x7d", [])
  | .whf => (color_h st "\x7b\\c&Hffffff&\x7d", [])
  | .drcsChar r => (drcs_h st r, [])
  | .unhandled => (st, [])

/-- Run the formatter over a stream of (token, timestamp) pairs, collecting
all Dialogue events in emission order. -/
def runFormatter : FState → List (Token × ℚ) → FState × List DialogueEvent
  | st, [] => (st, [])
  | st, (tok, t) :: rest =>
    let p := formatCC st tok t
    let q := runFormatter p.1 rest
    (q.1, p.2 ++ q.2)

/-- Run a fresh ASSFormatter with the given tmax over a token stream. -/
def runASS (tmax : ℚ) (stream : List (Token × ℚ)) :
    FState × List DialogueEvent :=
  runFormatter (initialFState tmax) stream

/-- The consistency between current_style and current_textsize asserted by
the spec's FormatterState invariants. -/
def styleSizeAgree (style : String) (size : Nat) : Prop :=
  (style = "normal" ∧ size = TextSize_NORMAL) ∨
  (style = "medium" ∧ size = TextSize_MEDIUM) ∨
  (style = "small" ∧ size = TextSize_SMALL)

instance (style : String) (size : Nat) : Decidable (styleSizeAgree style size) := by
  unfold styleSizeAgree
  infer_instance

/-- Is `p` a prefix of the first list (Boolean version on char lists). -/
def hasPrefixCL : List Char → List Char → Bool
  | _, [] => true
  | [], _ :: _ => false
  | a :: as, b :: bs => a == b && hasPrefixCL as bs

/-- Does `p` occur as a contiguous sublist of the first list. -/
def containsSubCL : List Char → List Char → Bool
  | [], p => hasPrefixCL [] p
  | a :: t, p => hasPrefixCL (a :: t) p || containsSubCL t p

/-- Does `pat` occur as a contiguous substring of `s`. -/
def strContainsSub (s pat : String) : Bool :=
  containsSubCL s.data pat.data

/-- The number of Dialogue lines actually written along a run: at every
Clear Screen with the output file open and distinct formatted start and end
times, one line per non-empty buffer (this mirrors what clear_screen
writes; proved equal to the run's emission count in the C4 theorem). -/
def emittedDialogueCount : FState → List (Token × ℚ) → Nat
  | _, [] => 0
  | st, (tok, t) :: rest =>
    (match tok with
     | .cs =>
       if st.file_open = true ∧
           asstime st.elapsed_time_s ≠ asstime (endValue st t) then
         (st.current_lines.filter (fun l => !l.isEmpty)).length
       else 0
     | _ => 0) + emittedDialogueCount (formatCC st tok t).1 rest

/-- The count stated by claim C4 (following the claim's words, not the
source): the number of Clear-Screen tokens observed at a moment when the
accumulated buffers are non-empty and the formatted start time differs
from the formatted end time. -/
def claimQualifyingCS : FState → List (Token × ℚ) → Nat
  | _, [] => 0
  | st, (tok, t) :: rest =>
    (match tok with
     | .cs =>
       if (∃ l ∈ st.current_lines, l ≠ "") ∧
           asstime st.elapsed_time_s ≠ asstime (endValue st t) then
         1
       else 0
     | _ => 0) + claimQualifyingCS (formatCC st tok t).1 rest

/-- Tokens that are DRCS characters or Clear Screen (the token streams of
claim C10). -/
def isDRCSorCS : Token → Bool
  | .drcsChar _ => true
  | .cs => true
  | _ => false

/-- Claim C2 (code_bug evidence): for the caption statement whose TMD byte
is 0x40 (TMD = 1) followed by the composite word
d = 0x0000000001000000 (STM bits all zero, reserved nibble 1, 24-bit
length field 0), the parser returns data_unit_loop_length = 16777216 =
d & 0xFFFFFFFF, although the low 24 bits of d are 0: the code masks with
0xFFFFFFFF (32 bits) instead of the 24-bit length field stated by the
claim and by the source's own comment. -/
theorem c2_theorem :
    parseCaptionStatementHeader [0x40, 0x00, 0x00, 0x00, 0x00, 0x01, 0x00, 0x00, 0x00] =
      .ok (⟨1, 0, 16777216⟩, []) ∧
    (0x0000000001000000 : Nat) % 2 ^ 24 = 0 ∧ (16777216 : Nat) ≠ 0 := by
  decide

/-- Claim C9 (confirmed): RowCol2ScreenPos returns
(170 + c*40, 30 + (r+1)*60) for NORMAL, (170 + c*20, 30 + (r+1)*60) for
MEDIUM, and (170 + c*20, 30 + (r+1)*30) for SMALL. -/
theorem c9_theorem : ∀ row col : ℤ,
    (RowCol2ScreenPos row col TextSize_NORMAL).x = 170 + (col : ℚ) * 40 ∧
    (RowCol2ScreenPos row col TextSize_NORMAL).y = 30 + ((row : ℚ) + 1) * 60 ∧
    (RowCol2ScreenPos row col TextSize_MEDIUM).x = 170 + (col : ℚ) * 20 ∧
    (RowCol2ScreenPos row col TextSize_MEDIUM).y = 30 + ((row : ℚ) + 1) * 60 ∧
    (RowCol2ScreenPos row col TextSize_SMALL).x = 170 + (col : ℚ) * 20 ∧
    (RowCol2ScreenPos row col TextSize_SMALL).y = 30 + ((row : ℚ) + 1) * 30 := by
  intro row col
  refine ⟨?_, ?_, ?_, ?_, ?_, ?_⟩ <;>
    simp only [RowCol2ScreenPos, CCArea_UL, CCArea_char_w, CCArea_char_h,
      TextSize_SMALL, TextSize_MEDIUM, TextSize_NORMAL, Nat.reduceEqDiff,
      or_self, or_false, false_or, if_true, if_false, reduceIte] <;>
    push_cast <;> ring

/-- Claim C7 (code_bug evidence): the source computes _DMF = d & 0x7, which
is at most 7 and therefore never equals 0b1100/0b1101/0b1110, so the DC
branch is dead: for EVERY per-language record the parser reads exactly the
tag/DMF byte, the three ISO-639 characters and the format byte (5 bytes),
stores DC = 0 and never consumes a DC byte — even when the wire record's
4-bit DMF field (the low nibble of the first byte) is 0b1100..0b1110, for
which the claim (and the code's own comparison values) require a DC byte. -/
theorem c7_theorem :
    (∀ d : Nat, ¬(d &&& 0x7 = 0b1100 ∨ d &&& 0x7 = 0b1101 ∨ d &&& 0x7 = 0b1110)) ∧
    ∀ (b0 b1 b2 b3 b4 : Nat) (r : List Nat),
      parseLanguage (b0 :: b1 :: b2 :: b3 :: b4 :: r) =
        .ok (⟨b0 >>> 5, b0 &&& 0x7, 0,
              String.mk [Char.ofNat b1, Char.ofNat b2, Char.ofNat b3],
              b4 >>> 4, b4 &&& 0x3⟩, r) := by
  have hdead : ∀ d : Nat,
      ¬(d &&& 0x7 = 0b1100 ∨ d &&& 0x7 = 0b1101 ∨ d &&& 0x7 = 0b1110) := by
    intro d
    have h7 : d &&& 0x7 ≤ 0x7 := Nat.and_le_right
    omega
  refine ⟨hdead, ?_⟩
  intro b0 b1 b2 b3 b4 r
  simp only [parseLanguage, readBE, readBEAux, Nat.zero_mul, Nat.zero_add,
    bind, Except.bind, pure, Except.pure]
  rw [if_neg (hdead b0)]

/-- Claim C6 (counterexample): a DRCS character record declaring two fonts
whose first font byte is 0x02 (mode nibble 2) makes the whole
DRCSCharacter parse raise ValueError("DRCSFont mode not supported."): no
font with a replacement character is produced and the remaining bytes —
which on their own parse as a perfectly valid mode-1 font — are abandoned,
so the affected character is NOT rendered as a replacement and processing
of the remaining characters of that data does NOT continue. -/
theorem c6_counterexample :
    parseDRCSCharacter (fun _ => 0) [0, 1, 2, 2, 1, 2, 0, 0] =
      .error "DRCSFont mode not supported." ∧
    parseDRCSFont (fun _ => 0) [1, 2, 0, 0] =
      .ok (⟨0, 1, 2, 0, 0, [], "�"⟩, []) := by
  decide

/-- Claim C6 (amended): a DRCSFont whose first byte's mode nibble is
neither 0 nor 1 makes the parse fail with
ValueError("DRCSFont mode not supported."), aborting the containing DRCS
parse; the per-PES handler in ts2ass.OnESPacket catches the exception
(logging it unless silent) and drops the rest of that PES, so no
replacement character is produced for the affected character and
processing resumes only at the next PES packet. -/
theorem c6_theorem :
    ∀ (pyhash : List Nat → Int) (b : Nat) (bs : List Nat),
      ¬(b &&& 0x0F = 0 ∨ b &&& 0x0F = 1) →
      parseDRCSFont pyhash (b :: bs) = .error "DRCSFont mode not supported." := by
  intro pyhash b bs h
  simp only [parseDRCSFont, readBE, readBEAux, Nat.zero_mul, Nat.zero_add,
    bind, Except.bind]
  rw [if_neg h]

/-- Witness for C6: the single font byte 0x02 has mode nibble 2 and the
parse errors. -/
theorem c6_witness :
    parseDRCSFont (fun _ => (0 : Int)) [2] = .error "DRCSFont mode not supported." :=
  c6_theorem (fun _ => 0) 2 [] (by decide)

/-- Claim C1 (counterexample): the music-note hash is in the substitute
table and a DRCSFont parsed with that pixel hash stores the substitute
"♬"; yet running the formatter over a stream containing a caption
character resolved to that glyph emits a Dialogue whose text is "あ�" —
the fixed replacement character — and the substitute does not appear
anywhere in the emitted Dialogue text. -/
theorem c1_counterexample :
    DRCSFont_character (-3174437220813644284) = "♬" ∧
    parseDRCSFont (fun _ => -3174437220813644284) [1, 2, 2, 2, 255] =
      .ok (⟨0, 1, 2, 2, 2, [255], "♬"⟩, []) ∧
    (runASS 5 [(.kanji "あ", 0), (.drcsChar "♬", 0), (.cs, 1)]).2 =
      [⟨0, 1, "あ�"⟩] ∧
    strContainsSub "あ�" "♬" = false ∧
    strContainsSub "あ�" "�" = true := by
  decide

/-- Claim C1 (amended): the DRCSFont of a glyph whose pixel hash is in the
static table stores the substitute string (e.g. "♬" for the music-note
entry), but the ASS formatter's drcs handler appends the fixed replacement
character "�" to the current buffer for every DRCS caption character,
ignoring the resolved substitute (and not opening the output file), so the
substitute never appears in the emitted Dialogue text. -/
theorem c1_theorem :
    (∀ (st : FState) (s : String) (t : ℚ) (a : String) (r : List String),
        st.current_lines = a :: r →
        (formatCC st (.drcsChar s) t).1.current_lines = (a ++ "�") :: r ∧
        (formatCC st (.drcsChar s) t).1.file_open = st.file_open) ∧
    DRCSFont_character (-3174437220813644284) = "♬" := by
  constructor
  · intro st s t a r hl
    simp [formatCC, drcs_h, appendCurrent, hl]
  · decide

/-- Witness for C1: from the initial state, a DRCS character resolved to
"♬" leaves the buffer list as ["�"] and the file unopened. -/
theorem c1_witness :
    (formatCC (initialFState 5) (Token.drcsChar "♬") 0).1.current_lines =
      ("" ++ "�") :: ([] : List String) ∧
    (formatCC (initialFState 5) (Token.drcsChar "♬") 0).1.file_open =
      (initialFState 5).file_open :=
  c1_theorem.1 (initialFState 5) "♬" 0 "" [] rfl

/-- Claim C3 (counterexample): asstime does not zero-pad the integer part
of the seconds — Python "{s:02.2f}" pads to total width 2 only, which a
precision-2 float always exceeds — so both example values of the claim are
wrong. -/
theorem c3_counterexample :
    asstime 0 ≠ "0:00:00.00" ∧ asstime (3723.45 : ℚ) ≠ "1:02:03.45" := by
  decide

/-- Claim C3 (amended): for non-negative seconds, asstime produces
hours (unpadded) ":" minutes (zero-padded to two digits) ":" seconds with
two centisecond digits but WITHOUT zero-padding of the integer part of the
seconds; in particular asstime(0) = "0:00:0.00" and
asstime(3723.45) = "1:02:3.45". -/
theorem c3_theorem :
    asstime 0 = "0:00:0.00" ∧ asstime (3723.45 : ℚ) = "1:02:3.45" ∧
    ∀ q : ℚ, 0 ≤ q → ∃ (h m : ℤ) (s : ℚ),
      0 ≤ h ∧ 0 ≤ m ∧ m < 60 ∧ 0 ≤ s ∧ s < 60 ∧
      q = 3600 * (h : ℚ) + 60 * (m : ℚ) + s ∧
      asstime q = toString h ++ ":" ++ zpad2Int m ++ ":" ++ fmtSec2 s := by
  refine ⟨by decide, by decide, ?_⟩
  intro q hq
  have h3600 : (0:ℚ) < 3600 := by norm_num
  have h60 : (0:ℚ) < 60 := by norm_num
  have hqd : 0 ≤ q / 3600 := div_nonneg hq (le_of_lt h3600)
  have hH : (⌊q / 3600⌋ : ℚ) * 3600 ≤ q := by
    rw [← le_div_iff₀ h3600]
    exact Int.floor_le _
  have hH2 : q < ((⌊q / 3600⌋ : ℚ) + 1) * 3600 := by
    rw [← div_lt_iff₀ h3600]
    have := Int.lt_floor_add_one (q / 3600)
    push_cast at this ⊢
    linarith
  have hs1_0 : 0 ≤ q - 3600 * (⌊q / 3600⌋ : ℚ) := by linarith
  have hs1_lt : q - 3600 * (⌊q / 3600⌋ : ℚ) < 3600 := by linarith
  have hmd : 0 ≤ (q - 3600 * (⌊q / 3600⌋ : ℚ)) / 60 :=
    div_nonneg hs1_0 (le_of_lt h60)
  have hM : (⌊(q - 3600 * (⌊q / 3600⌋ : ℚ)) / 60⌋ : ℚ) * 60 ≤
      q - 3600 * (⌊q / 3600⌋ : ℚ) := by
    rw [← le_div_iff₀ h60]
    exact Int.floor_le _
  have hM2 : q - 3600 * (⌊q / 3600⌋ : ℚ) <
      ((⌊(q - 3600 * (⌊q / 3600⌋ : ℚ)) / 60⌋ : ℚ) + 1) * 60 := by
    rw [← div_lt_iff₀ h60]
    have := Int.lt_floor_add_one ((q - 3600 * (⌊q / 3600⌋ : ℚ)) / 60)
    push_cast at this ⊢
    linarith
  refine ⟨⌊q / 3600⌋, ⌊(q - 3600 * (⌊q / 3600⌋ : ℚ)) / 60⌋,
    q - 3600 * (⌊q / 3600⌋ : ℚ) -
      60 * (⌊(q - 3600 * (⌊q / 3600⌋ : ℚ)) / 60⌋ : ℚ),
    Int.floor_nonneg.mpr hqd, Int.floor_nonneg.mpr hmd, ?_,
    by linarith, by linarith, by push_cast; ring, ?_⟩
  · rw [show (60 : ℤ) = ((60 : ℕ) : ℤ) from rfl, Int.floor_lt]
    rw [div_lt_iff₀ h60]
    push_cast
    linarith
  · simp only [asstime, pytrunc, if_pos hqd, if_pos hmd]

/-- Witness for C3: the decomposition at q = 0. -/
theorem c3_witness :
    ∃ (h m : ℤ) (s : ℚ),
      0 ≤ h ∧ 0 ≤ m ∧ m < 60 ∧ 0 ≤ s ∧ s < 60 ∧
      (0 : ℚ) = 3600 * (h : ℚ) + 60 * (m : ℚ) + s ∧
      asstime 0 = toString h ++ ":" ++ zpad2Int m ++ ":" ++ fmtSec2 s :=
  c3_theorem.2.2 0 (le_refl 0)

/-- Claim C5 (counterexample): after a Small-Size token followed by Clear
Screen, current_style is still "small" while current_textsize has been
reset to NORMAL — clear_screen resets the size (and color) but not the
style, so the claimed consistency fails immediately after Clear Screen. -/
theorem c5_counterexample :
    ¬ styleSizeAgree ((runASS 5 [(.ssz, 0), (.cs, 1)]).1.current_style)
        ((runASS 5 [(.ssz, 0), (.cs, 1)]).1.current_textsize) := by
  decide

/-- Claim C5 (amended): every token handler other than Clear Screen keeps
current_style and current_textsize consistent, but Clear Screen sets
current_textsize to NORMAL and current_color to white while leaving
current_style unchanged, so the consistency can be broken right after a
Clear Screen (whenever the style was not "normal"). -/
theorem c5_theorem :
    (∀ (st : FState) (tok : Token) (t : ℚ), tok ≠ .cs →
        styleSizeAgree st.current_style st.current_textsize →
        styleSizeAgree ((formatCC st tok t).1.current_style)
          ((formatCC st tok t).1.current_textsize)) ∧
    (∀ (st : FState) (t : ℚ),
        (formatCC st .cs t).1.current_style = st.current_style ∧
        (formatCC st .cs t).1.current_textsize = TextSize_NORMAL ∧
        (formatCC st .cs t).1.current_color = whiteColor) := by
  constructor
  · intro st tok t hne hag
    cases tok <;>
      simp_all [formatCC, text_h, medium_h, normal_h, small_h, space_h,
        drcs_h, color_h, position_set_h, control_character_h, appendCurrent,
        openFileF, styleSizeAgree]
  · intro st t
    simp only [formatCC, clear_screen_h]
    split <;> simp

/-- Witness for C5: the Space handler preserves the consistency from the
initial state. -/
theorem c5_witness :
    styleSizeAgree ((formatCC (initialFState 5) Token.sp 0).1.current_style)
      ((formatCC (initialFState 5) Token.sp 0).1.current_textsize) :=
  c5_theorem.1 (initialFState 5) Token.sp 0 (by decide) (Or.inl ⟨rfl, rfl⟩)

/-- clear_screen leaves the file-open flag unchanged. -/
lemma clear_screen_file_open (st : FState) (t : ℚ) :
    (clear_screen_h st t).1.file_open = st.file_open := by
  simp only [clear_screen_h]
  split <;> rfl

/-- clear_screen with no open file writes nothing. -/
lemma clear_screen_closed (st : FState) (t : ℚ) (h : st.file_open = false) :
    (clear_screen_h st t).2 = [] := by
  simp only [clear_screen_h, h]
  split <;> simp

/-- clear_screen preserves tmax. -/
lemma clear_screen_tmax (st : FState) (t : ℚ) :
    (clear_screen_h st t).1.tmax = st.tmax := by
  simp only [clear_screen_h]
  split <;> rfl

/-- clear_screen sets the elapsed time to the current timestamp. -/
lemma clear_screen_elapsed (st : FState) (t : ℚ) :
    (clear_screen_h st t).1.elapsed_time_s = t := by
  simp only [clear_screen_h]
  split <;> rfl

/-- Every handler preserves tmax. -/
lemma formatCC_tmax (st : FState) (tok : Token) (t : ℚ) :
    (formatCC st tok t).1.tmax = st.tmax := by
  cases tok <;>
    first
      | rfl
      | exact clear_screen_tmax st t

/-- Every handler leaves the elapsed time unchanged, except Clear Screen
which sets it to the current timestamp. -/
lemma formatCC_elapsed (st : FState) (tok : Token) (t : ℚ) :
    (formatCC st tok t).1.elapsed_time_s = st.elapsed_time_s ∨
    (formatCC st tok t).1.elapsed_time_s = t := by
  cases tok <;>
    first
      | exact Or.inl rfl
      | exact Or.inr (clear_screen_elapsed st t)

/-- Every Dialogue event emitted by one step carries the pre-step elapsed
time as start and the capped end value as end. -/
lemma formatCC_events (st : FState) (tok : Token) (t : ℚ) :
    ∀ e ∈ (formatCC st tok t).2,
      e.start_s = st.elapsed_time_s ∧ e.end_s = endValue st t := by
  intro e he
  cases tok
  case cs =>
    simp only [formatCC, clear_screen_h] at he
    split at he
    · by_cases hf : st.file_open
      · simp only [hf, if_true, List.mem_map] at he
        obtain ⟨l, _, rfl⟩ := he
        exact ⟨rfl, rfl⟩
      · simp [hf] at he
    · simp at he
  all_goals exact absurd he (List.not_mem_nil e)

/-- Over a stream of only DRCS characters and Clear Screens, the file
stays closed and nothing is written. -/
lemma c10_aux : ∀ (stream : List (Token × ℚ)) (st : FState),
    st.file_open = false →
    (∀ p ∈ stream, isDRCSorCS p.1 = true) →
    (runFormatter st stream).1.file_open = false ∧
    (runFormatter st stream).2 = [] := by
  intro stream
  induction stream with
  | nil =>
    intro st h _
    exact ⟨h, rfl⟩
  | cons p rest ih =>
    obtain ⟨tok, t⟩ := p
    intro st hopen hall
    have htok : isDRCSorCS tok = true := hall (tok, t) (List.mem_cons_self _ _)
    have hstep : (formatCC st tok t).1.file_open = false ∧
        (formatCC st tok t).2 = [] := by
      cases tok <;> simp only [isDRCSorCS] at htok <;> try exact absurd htok (by decide)
      case cs =>
        exact ⟨(clear_screen_file_open st t).trans hopen,
          clear_screen_closed st t hopen⟩
      case drcsChar s =>
        exact ⟨by simp [formatCC, drcs_h, appendCurrent, hopen], rfl⟩
    have hrest := ih (formatCC st tok t).1 hstep.1
      (fun p hp => hall p (List.mem_cons_of_mem _ hp))
    have hrw2 : (runFormatter st ((tok, t) :: rest)).2 =
        (formatCC st tok t).2 ++ (runFormatter (formatCC st tok t).1 rest).2 := rfl
    have hrw1 : (runFormatter st ((tok, t) :: rest)).1 =
        (runFormatter (formatCC st tok t).1 rest).1 := rfl
    constructor
    · rw [hrw1]
      exact hrest.1
    · rw [hrw2, hstep.2, hrest.2]
      rfl

/-- Claim C10 (confirmed): the drcs handler appends its replacement text
without opening the output file and emits nothing; clear_screen writes
Dialogue lines only when the output file is already open; hence a token
stream consisting solely of DRCS characters (and Clear Screens) creates no
ASS output file and emits no Dialogue line, even though the accumulated
buffers are non-empty at Clear Screen. -/
theorem c10_theorem :
    (∀ (st : FState) (s : String) (t : ℚ),
        (formatCC st (.drcsChar s) t).1.file_open = st.file_open ∧
        (formatCC st (.drcsChar s) t).2 = []) ∧
    (∀ (st : FState) (t : ℚ), st.file_open = false →
        (formatCC st .cs t).2 = []) ∧
    ∀ (tmax : ℚ) (stream : List (Token × ℚ)),
      (∀ p ∈ stream, isDRCSorCS p.1 = true) →
      (runASS tmax stream).1.file_open = false ∧
      (runASS tmax stream).2 = [] := by
  refine ⟨?_, ?_, ?_⟩
  · intro st s t
    exact ⟨by simp [formatCC, drcs_h, appendCurrent], rfl⟩
  · intro st t h
    exact clear_screen_closed st t h
  · intro tmax stream hall
    exact c10_aux stream (initialFState tmax) rfl hall

/-- Witness for C10: a DRCS character followed by Clear Screen with
non-empty buffer produces no file and no Dialogue. -/
theorem c10_witness :
    (runASS 5 [(Token.drcsChar "♬", 0), (Token.cs, 1)]).1.file_open = false ∧
    (runASS 5 [(Token.drcsChar "♬", 0), (Token.cs, 1)]).2 = [] :=
  c10_theorem.2.2 5 [(Token.drcsChar "♬", 0), (Token.cs, 1)] (by decide)

/-- The number of Dialogue events emitted by one step: zero except at
Clear Screen with the file open and distinct formatted times, where it is
the number of non-empty buffers. -/
lemma formatCC_out_length (st : FState) (tok : Token) (t : ℚ) :
    ((formatCC st tok t).2).length =
      (match tok with
       | .cs =>
         if st.file_open = true ∧
             asstime st.elapsed_time_s ≠ asstime (endValue st t) then
           (st.current_lines.filter (fun l => !l.isEmpty)).length
         else 0
       | _ => 0) := by
  cases tok <;> try rfl
  show (clear_screen_h st t).2.length = _
  simp only [clear_screen_h]
  by_cases hB : asstime st.elapsed_time_s = asstime (endValue st t)
  · simp [hB]
  · by_cases hA : st.current_lines.getLastD "" ≠ "" ∨ st.current_lines ≠ []
    · rw [if_pos ⟨hA, hB⟩]
      show (if st.file_open = true then
          (st.current_lines.filter (fun l => !l.isEmpty)).map
            (fun l => (⟨st.elapsed_time_s, endValue st t, l⟩ : DialogueEvent))
        else ([] : List DialogueEvent)).length = _
      by_cases hf : st.file_open = true
      · rw [if_pos hf, if_pos ⟨hf, hB⟩, List.length_map]
      · rw [if_neg hf, if_neg (fun hc => hf hc.1)]
        rfl
    · push_neg at hA
      simp [hA.2]

/-- Claim C4 (amended): for every token stream, the number of Dialogue
lines written equals the sum, over the Clear-Screen tokens at which the
output file is open and the formatted start time differs from the
formatted end time, of the number of non-empty accumulated buffers at that
moment (one Clear Screen can write several Dialogue lines, one per
non-empty buffer). -/
theorem c4_theorem : ∀ (st : FState) (stream : List (Token × ℚ)),
    ((runFormatter st stream).2).length = emittedDialogueCount st stream := by
  intro st stream
  induction stream generalizing st with
  | nil => rfl
  | cons p rest ih =>
    obtain ⟨tok, t⟩ := p
    have hrw : (runFormatter st ((tok, t) :: rest)).2 =
        (formatCC st tok t).2 ++ (runFormatter (formatCC st tok t).1 rest).2 := rfl
    rw [hrw, List.length_append, ih, formatCC_out_length]
    rfl

/-- Claim C4 (counterexample): the stream kanji "A", APS, kanji "B",
Clear Screen at time 1 emits TWO Dialogue lines (one per non-empty
buffer), while only ONE Clear-Screen token is observed with non-empty
buffers and distinct formatted times — so the claimed equality fails. -/
theorem c4_counterexample :
    ((runASS 5 [(.kanji "A", 0), (.aps 0 0, 0), (.kanji "B", 0), (.cs, 1)]).2).length = 2 ∧
    claimQualifyingCS (initialFState 5)
      [(.kanji "A", 0), (.aps 0 0, 0), (.kanji "B", 0), (.cs, 1)] = 1 ∧
    (2 : Nat) ≠ 1 := by
  decide

/-- Along a run with non-negative tmax, non-negative current elapsed time,
non-decreasing timestamps all at least the current elapsed time, every
emitted Dialogue satisfies start ≤ end ≤ start + tmax. -/
lemma c8_aux : ∀ (stream : List (Token × ℚ)) (st : FState),
    0 ≤ st.tmax → 0 ≤ st.elapsed_time_s →
    List.Chain' (· ≤ ·) (stream.map Prod.snd) →
    (∀ t0 ∈ (stream.map Prod.snd).head?, st.elapsed_time_s ≤ t0) →
    ∀ e ∈ (runFormatter st stream).2,
      e.start_s ≤ e.end_s ∧ e.end_s ≤ e.start_s + st.tmax := by
  intro stream
  induction stream with
  | nil =>
    intro st _ _ _ _ e he
    exact absurd he (List.not_mem_nil e)
  | cons p rest ih =>
    obtain ⟨tok, t⟩ := p
    intro st htm hel hch hhd e he
    have hst_t : st.elapsed_time_s ≤ t := hhd t (by simp)
    have hrw : (runFormatter st ((tok, t) :: rest)).2 =
        (formatCC st tok t).2 ++ (runFormatter (formatCC st tok t).1 rest).2 := rfl
    rw [hrw] at he
    rcases List.mem_append.mp he with he1 | he2
    · obtain ⟨h1, h2⟩ := formatCC_events st tok t e he1
      have hend : st.elapsed_time_s ≤ endValue st t ∧
          endValue st t ≤ st.elapsed_time_s + st.tmax := by
        unfold endValue
        split
        · constructor <;> linarith
        · rename_i hle
          push_neg at hle
          constructor <;> linarith
      rw [h1, h2]
      exact hend
    · have htm' : (formatCC st tok t).1.tmax = st.tmax := formatCC_tmax st tok t
      have hel2 := formatCC_elapsed st tok t
      have hel' : 0 ≤ (formatCC st tok t).1.elapsed_time_s := by
        rcases hel2 with h | h <;> rw [h] <;> linarith
      have hch0 : List.Chain' (· ≤ ·) (t :: rest.map Prod.snd) := by
        simpa using hch
      have hch' : List.Chain' (· ≤ ·) (rest.map Prod.snd) := hch0.tail
      have hhd' : ∀ t0 ∈ (rest.map Prod.snd).head?,
          (formatCC st tok t).1.elapsed_time_s ≤ t0 := by
        intro t0 ht0
        have ht_t0 : t ≤ t0 := by
          cases hrest : rest.map Prod.snd with
          | nil => rw [hrest] at ht0; exact absurd ht0 (by simp)
          | cons q rest2 =>
            rw [hrest] at ht0
            have hq : q = t0 := by simpa using ht0
            rw [hrest] at hch0
            rw [← hq]
            exact (List.chain'_cons.mp hch0).1
        rcases hel2 with h | h <;> rw [h]
        · linarith
        · exact ht_t0
      have hres := ih (formatCC st tok t).1 (by rw [htm']; exact htm) hel' hch' hhd' e he2
      rw [htm'] at hres
      exact hres

/-- Claim C8 (confirmed): the clear_screen end value equals
min(timestamp, elapsed + tmax); consequently, with a non-negative tmax,
non-decreasing timestamps and a non-negative first timestamp, every
Dialogue emitted over the whole run satisfies start ≤ end ≤ start + tmax
(start and end being the numeric second values formatted into the
Dialogue line). -/
theorem c8_theorem (tmax : ℚ) (stream : List (Token × ℚ))
    (htmax : 0 ≤ tmax)
    (hmono : List.Chain' (· ≤ ·) (stream.map Prod.snd))
    (hfirst : ∀ t0 ∈ (stream.map Prod.snd).head?, (0 : ℚ) ≤ t0) :
    (∀ (st : FState) (t : ℚ),
        endValue st t = min t (st.elapsed_time_s + st.tmax)) ∧
    ∀ e ∈ (runASS tmax stream).2,
      e.start_s ≤ e.end_s ∧ e.end_s ≤ e.start_s + tmax := by
  constructor
  · intro st t
    unfold endValue
    split
    · rename_i hgt
      rw [min_eq_right]
      linarith
    · rename_i hle
      push_neg at hle
      rw [min_eq_left]
      linarith
  · intro e he
    have h0 : 0 ≤ (initialFState tmax).tmax := htmax
    have h1 : 0 ≤ (initialFState tmax).elapsed_time_s := le_refl 0
    have h2 : ∀ t0 ∈ (stream.map Prod.snd).head?,
        (initialFState tmax).elapsed_time_s ≤ t0 := hfirst
    exact c8_aux stream (initialFState tmax) h0 h1 hmono h2 e he

/-- Witness for C8: for the stream kanji "A" at 0, Clear Screen at 1 with
tmax 5, the single emitted Dialogue event (0, 1, "A") satisfies the
bounds. -/
theorem c8_witness :
    (DialogueEvent.mk 0 1 "A").start_s ≤ (DialogueEvent.mk 0 1 "A").end_s ∧
    (DialogueEvent.mk 0 1 "A").end_s ≤ (DialogueEvent.mk 0 1 "A").start_s + 5 :=
  (c8_theorem 5 [(Token.kanji "A", 0), (Token.cs, 1)] (by norm_num)
    (by
      simp only [List.map_cons, List.map_nil]
      exact List.chain'_cons.mpr ⟨by norm_num, List.chain'_singleton _⟩)
    (by
      intro t0 ht0
      have h0 : (0 : ℚ) = t0 := by simpa using ht0
      rw [← h0])).2 ⟨0, 1, "A"⟩ (by decide)
